import Mathlib

/-!
Shallow embedding of the `install-vulkan-sdk-action` GitHub action
(TypeScript) and proofs about it.

The embedding models the pure computational content of the action:
platform detection (`src/platform.ts`), version comparison
(`src/versions.ts`), version-input validation (`src/inputs.ts`),
`latest`-version resolution (`src/versions_vulkan.ts`), download-URL
construction (`src/downloader.ts`), the Mac installer dispatch
(`src/installer_vulkan.ts`), and the cache-key computation and
download/install pipeline (`src/main.ts`).

Effectful operations (HTTP fetches, the filesystem probe of
`/etc/os-release`, cache restore results) are passed in as explicit
inputs, and the pipeline's side effects are recorded as an explicit
event trace.
-/

namespace VulkanAction

/-- Platform facts, from `os.platform()` (`"win32"`, `"linux"`, `"darwin"`)
and `os.arch()` (`"x64"`, `"arm64"`), as read by `src/platform.ts`. -/
structure PlatformFacts where
  osPlatform : String
  osArch : String
deriving DecidableEq, Repr

/-- `IS_WINDOWS = OS_PLATFORM === 'win32'` (src/platform.ts). -/
def IS_WINDOWS (f : PlatformFacts) : Bool := f.osPlatform == "win32"

/-- `IS_LINUX = OS_PLATFORM === 'linux'` (src/platform.ts). -/
def IS_LINUX (f : PlatformFacts) : Bool := f.osPlatform == "linux"

/-- `IS_MAC = OS_PLATFORM === 'darwin'` (src/platform.ts). -/
def IS_MAC (f : PlatformFacts) : Bool := f.osPlatform == "darwin"

/-- `IS_WARM = IS_WINDOWS && OS_ARCH === 'arm64'` (src/platform.ts). -/
def IS_WARM (f : PlatformFacts) : Bool := IS_WINDOWS f && f.osArch == "arm64"

/-- `getPlatform()` from `src/platform.ts`: a sequence of early-return
`if` statements, embedded as an if-chain in the source's order. -/
def getPlatform (f : PlatformFacts) : String :=
  if IS_WINDOWS f then "windows"
  else if IS_WARM f then "warm"
  else if IS_MAC f then "mac"
  else f.osPlatform

/-- Digit value of an ASCII character, as used when a digit string is
read as an integer. -/
def digitVal (c : Char) : Nat := c.toNat - 48

/-- Value of a digit string read left to right as one base-10 integer. -/
def parseDigits (l : List Char) : Nat :=
  l.foldl (fun n c => 10 * n + digitVal c) 0

/-- Floor of the base-2 logarithm, computed with explicit fuel so that
it is structurally recursive; `fuel ≥ log2 n` suffices, so passing `n`
itself as fuel always gives the exact value. -/
def log2Fuel : Nat → Nat → Nat
  | 0, _ => 0
  | fuel + 1, n => if n ≤ 1 then 0 else log2Fuel fuel (n / 2) + 1

/-- Round a non-negative integer to the nearest IEEE-754 double
(53-bit mantissa, round to nearest, ties to even), the conversion
JavaScript applies to the exact integer a numeric string denotes.
Integers up to `2 ^ 53` are represented exactly.  (Integers at or
above `2 ^ 1024` overflow to Infinity in JavaScript; the model keeps
them finite, and no theorem below relies on that region.) -/
def roundToDouble (n : Nat) : Nat :=
  if n ≤ 2 ^ 53 then n
  else
    let e := log2Fuel n n - 52
    let q := n / 2 ^ e
    let r := n % 2 ^ e
    if 2 ^ e < 2 * r ∨ (2 * r = 2 ^ e ∧ q % 2 = 1) then (q + 1) * 2 ^ e
    else q * 2 ^ e

/-- `Number.parseInt` on a non-negative decimal string: the longest
leading run of digits read as an integer and converted to a double,
`none` (NaN) when there is no leading digit. -/
def parseIntJS (l : List Char) : Option Nat :=
  let ds := l.takeWhile Char.isDigit
  if ds.isEmpty then none else some (roundToDouble (parseDigits ds))

/-- `v.replace(/\./g, '')` from `src/versions.ts`: remove every dot. -/
def removeDots (l : List Char) : List Char := l.filter (fun c => c ≠ '.')

/-- `compare(v1, v2)` from `src/versions.ts`: strip dots, parse each
with `Number.parseInt` (a double), compare; any NaN makes both `<` and
`>` false, giving 0. -/
def compare (v1 v2 : String) : Int :=
  match parseIntJS (removeDots v1.toList), parseIntJS (removeDots v2.toList) with
  | some n1, some n2 => if n1 < n2 then -1 else if n1 > n2 then 1 else 0
  | _, _ => 0

/-- The digit-concatenation value of a version string: delete the dots
and read the remaining digit string as one integer. -/
def digitConcatVal (v : String) : Nat := parseDigits (removeDots v.toList)

/-- Split a character list at every `'.'` (dots are separators and are
dropped; `n` dots give `n + 1` parts). -/
def splitDots : List Char → List (List Char)
  | [] => [[]]
  | c :: rest =>
    if c = '.' then [] :: splitDots rest
    else
      match splitDots rest with
      | [] => [[c]]
      | h :: t => (c :: h) :: t

/-- A non-empty all-digit character run, i.e. what `\d+` matches. -/
def isDigitRun (l : List Char) : Bool := !l.isEmpty && l.all Char.isDigit

/-- `validateVersion` from `src/inputs.ts`: the regular expression
`^\d+\.\d+\.\d+\.\d+$`, i.e. exactly four non-empty digit runs
separated by single dots. -/
def validateVersion (s : String) : Bool :=
  match splitDots s.toList with
  | [a, b, c, d] => isDigitRun a && isDigitRun b && isDigitRun c && isDigitRun d
  | _ => false

/-- JavaScript relational `<=` on strings: lexicographic comparison of
the code-unit sequences (all characters here are ASCII). -/
def jsLeChars : List Char → List Char → Bool
  | [], _ => true
  | _ :: _, [] => false
  | a :: as, b :: bs =>
    if a < b then true
    else if b < a then false
    else jsLeChars as bs

/-- JavaScript `s <= t` on strings. -/
def jsStringLe (a b : String) : Bool := jsLeChars a.toList b.toList

/-- The body of `https://vulkan.lunarg.com/sdk/latest.json`
(src/versions_vulkan.ts, interface `LatestVersionResponse`). -/
structure LatestVersionResponse where
  linux : String
  mac : String
  warm : String
  windows : String
deriving DecidableEq, Repr

/-- `getLatestVersionForPlatform` from `src/versions_vulkan.ts`, in the
source's branch order.  The source consults `platform.IS_WINDOWS_ARM`
and `platform.IS_LINUX_ARM`; the platform module derives the
windows-on-arm fact as `IS_WARM`, and linux on arm already satisfies
`IS_LINUX`, so those are the facts used here. -/
def getLatestVersionForPlatform (f : PlatformFacts) (r : LatestVersionResponse) : String :=
  if IS_WINDOWS f then r.windows
  else if IS_WARM f then r.warm
  else if IS_LINUX f then r.linux
  else if IS_MAC f then r.mac
  else ""

/-- Outcome of `resolveVersion`: the returned version string, and
whether `core.setFailed` was called (marking the whole run failed). -/
structure ResolveOutcome where
  version : String
  runFailed : Bool
deriving DecidableEq, Repr

/-- `resolveVersion` from `src/versions_vulkan.ts`.  `fetch` is the
outcome of `getLatestVersions()`: `Except.error` when the HTTP fetch
fails or the document is malformed (the function throws), `Except.ok`
with the parsed response otherwise (the non-null result).  On the error
path the source catches, calls `core.setFailed` and falls through to
`return versionToDownload`, which still holds the incoming token. -/
def resolveVersion (f : PlatformFacts) (version : String)
    (fetch : Except String LatestVersionResponse) : ResolveOutcome :=
  if version == "latest" then
    match fetch with
    | .ok r => ⟨getLatestVersionForPlatform f r, false⟩
    | .error _ => ⟨version, true⟩
  else ⟨version, false⟩

/-- `getInputVersion` from `src/inputs.ts`.  JavaScript `!s` on a string
is true exactly when the string is empty, so the guard of the `throw`
is `requestedVersion === '' && !validateVersion(requestedVersion)`.
An `Except.error` models the `throw new Error(...)`. -/
def getInputVersion (requestedVersion : String) : Except String String :=
  if requestedVersion == "" then .ok "latest"
  else if requestedVersion == "" && !validateVersion requestedVersion then
    .error "Invalid format of vulkan_version"
  else .ok requestedVersion

/-- `getUrlVulkanSdk` from `src/downloader.ts`, embedded as a pure
function of the platform facts, the value of the
`getLinuxDistributionVersionId()` probe, and the version.  The source
is a sequence of independent (non-exclusive) `if` statements each
assigning `vulkanSdkUrl`; the embedding threads the variable through in
the same order, so a later matching branch overwrites an earlier one,
exactly as in the source. -/
def getUrlVulkanSdk (f : PlatformFacts) (distroVersionId : String) (version : String) : String :=
  let platformName := getPlatform f
  let downloadBaseUrl := "https://sdk.lunarg.com/sdk/download/" ++ version ++ "/" ++ platformName
  let url := ""
  let url := if IS_WINDOWS f then
      downloadBaseUrl ++ "/VulkanSDK-" ++ version ++ "-Installer.exe"
    else url
  let url := if IS_WARM f then
      downloadBaseUrl ++ "/InstallVulkanARM64-" ++ version ++ ".exe"
    else url
  let url := if IS_LINUX f && f.osArch == "arm64" then
      let distributionVersion := if distroVersionId == "20.04" then "20.04" else "24.04"
      let armBaseUrl := "https://github.com/jakoch/vulkan-sdk-arm/releases/download/" ++ version
      armBaseUrl ++ "/vulkansdk-ubuntu-" ++ distributionVersion ++ "-arm-" ++ version ++ ".tar.xz"
    else url
  let url := if IS_LINUX f then
      let extension := if compare version "1.3.250.1" == 1 then "tar.xz" else "tar.gz"
      downloadBaseUrl ++ "/vulkansdk-linux-x86_64-" ++ version ++ "." ++ extension
    else url
  let url := if IS_MAC f then
      let extension := if compare version "1.3.290.0" == 1 then "zip" else "dmg"
      downloadBaseUrl ++ "/vulkansdk-macos-" ++ version ++ "." ++ extension
    else url
  url

/-- The installation procedure selected by `installVulkanSdk`
(src/installer_vulkan.ts): mount a Mac disk image, extract a Mac zip,
extract a Linux archive, run the Windows installer, or nothing for an
unknown platform. -/
inductive InstallProc where
  | macDmg
  | macZip
  | linux
  | windows
  | noProc
deriving DecidableEq, Repr

/-- The dispatch in `installVulkanSdk` (src/installer_vulkan.ts):
`if (IS_MAC) { if (version <= '1.3.290.0') dmg else zip }
else if (IS_LINUX) ... else if (IS_WINDOWS || IS_WARM) ...`.
The Mac guard is JavaScript string `<=`, i.e. lexicographic. -/
def installVulkanSdkDispatch (f : PlatformFacts) (version : String) : InstallProc :=
  if IS_MAC f then
    if jsStringLe version "1.3.290.0" then .macDmg else .macZip
  else if IS_LINUX f then .linux
  else if IS_WINDOWS f || IS_WARM f then .windows
  else .noProc

/-- `getCacheKeys(version, path)` from `src/main.ts`.  The `path`
argument is accepted and unused, as in the source; the platform name
comes from `getPlatform()` and the architecture from `OS_ARCH`. -/
def getCacheKeys (f : PlatformFacts) (version : String) (_path : String) : String × List String :=
  let cachePrimaryKey := "cache-" ++ getPlatform f ++ "-" ++ f.osArch ++ "-vulkan-sdk-" ++ version
  let cacheRestoreKey1 := "cache-" ++ getPlatform f ++ "-" ++ f.osArch ++ "-vulkan-sdk-"
  let cacheRestoreKey2 := "cache-" ++ getPlatform f ++ "-" ++ f.osArch ++ "-"
  (cachePrimaryKey, [cacheRestoreKey1, cacheRestoreKey2])

/-- `path.normalize`; on the strings involved here normalization does
not change the observable structure the claims talk about, so it is
modelled as the identity on the path string. -/
def pathNormalize (s : String) : String := s

/-- The environment of one run of the pipeline: the outcome of the
cache restore (`some cacheId` on a hit, `none` on a miss) and the paths
produced by the downloader and the installer. -/
structure SdkEnv where
  restoreResult : Option String
  sdkDownloadPath : String
  sdkInstallPath : String
  runtimeDownloadPath : String
  saveResult : Int
deriving DecidableEq, Repr

/-- Observable effects of `getVulkanSdk` (src/main.ts), in order. -/
inductive Event where
  | restoreCache (paths : List String) (primaryKey : String) (restoreKeys : List String)
  | downloadSdk (version : String)
  | installSdk (sdkPath : String) (destination : String) (version : String)
  | downloadRuntime (version : String)
  | installRuntimeEv (runtimePath : String) (destination : String) (version : String)
  | stripdownEv (path : String)
  | saveCache (paths : List String) (key : String)
deriving DecidableEq, Repr

/-- Whether an event downloads, installs, strips or saves (everything
except the initial cache-restore lookup). -/
def Event.isEffect : Event → Bool
  | .restoreCache _ _ _ => false
  | _ => true

/-- `getVulkanSdk` from `src/main.ts`, as a pure function of the
platform facts, the run environment and the inputs, returning the
resolved installation path together with the trace of effects.
The source consults `platform.IS_WINDOWS || platform.IS_WINDOWS_ARM`;
windows-on-arm satisfies `IS_WINDOWS`, so that disjunct decides it. -/
def getVulkanSdk (f : PlatformFacts) (env : SdkEnv) (version destination : String)
    (useCache stripdown installRuntime : Bool) : String × List Event :=
  let keys := getCacheKeys f version destination
  let cachePrimaryKey := keys.1
  let cacheRestoreKeys := keys.2
  let restorePaths :=
    if IS_WINDOWS f || IS_WARM f then [pathNormalize (destination ++ "/" ++ version)]
    else [destination]
  let restoreEvents :=
    if useCache then [Event.restoreCache restorePaths cachePrimaryKey cacheRestoreKeys]
    else []
  if useCache && env.restoreResult.isSome then
    (destination, restoreEvents)
  else
    let vulkanSdkPath := env.sdkDownloadPath
    let installPath := env.sdkInstallPath
    let installEvents :=
      [Event.downloadSdk version, Event.installSdk vulkanSdkPath destination version]
    let runtimeEvents :=
      if (IS_WINDOWS f || IS_WARM f) && installRuntime then
        [Event.downloadRuntime version,
         Event.installRuntimeEv env.runtimeDownloadPath destination version]
      else []
    let saveEvents :=
      if useCache then
        (if stripdown then [Event.stripdownEv installPath] else []) ++
          [Event.saveCache [installPath] cachePrimaryKey]
      else []
    (installPath, restoreEvents ++ installEvents ++ runtimeEvents ++ saveEvents)

/-! ## Supporting lemmas -/

/-- `takeWhile` keeps a list all of whose elements satisfy the predicate. -/
theorem takeWhile_of_all {p : Char → Bool} : ∀ {l : List Char}, l.all p = true → l.takeWhile p = l := by
  intro l h
  induction l with
  | nil => rfl
  | cons c cs ih =>
    simp only [List.all_cons, Bool.and_eq_true] at h
    simp [List.takeWhile_cons, h.1, ih h.2]

/-- On a non-empty all-digit string, `parseIntJS` consumes the whole
string and returns its value rounded to a double. -/
theorem parseIntJS_of_digits {l : List Char} (hne : l ≠ []) (hd : l.all Char.isDigit = true) :
    parseIntJS l = some (roundToDouble (parseDigits l)) := by
  unfold parseIntJS
  rw [takeWhile_of_all hd]
  simp [hne]

/-- Integers up to `2 ^ 53` are exact doubles. -/
theorem roundToDouble_of_le {n : Nat} (h : n ≤ 2 ^ 53) : roundToDouble n = n := by
  unfold roundToDouble
  rw [if_pos h]

/-- Removing the dots of a list is flattening its dot-separated parts. -/
theorem removeDots_eq_flatten : ∀ l : List Char, removeDots l = (splitDots l).flatten := by
  intro l
  induction l with
  | nil => rfl
  | cons c cs ih =>
    by_cases hc : c = '.'
    · subst hc
      simp [removeDots, List.filter_cons, splitDots] at *
      exact ih
    · rw [show removeDots (c :: cs) = c :: removeDots cs by
        simp [removeDots, List.filter_cons, hc]]
      rw [show splitDots (c :: cs) =
          (match splitDots cs with | [] => [[c]] | h :: t => (c :: h) :: t) by
        simp [splitDots, hc]]
      cases hs : splitDots cs with
      | nil => simp [ih, hs]
      | cons h t => simp [ih, hs]

/-- A version accepted by `validateVersion` becomes, after dot removal,
a non-empty all-digit string. -/
theorem validateVersion_removeDots {s : String} (h : validateVersion s = true) :
    removeDots s.toList ≠ [] ∧ (removeDots s.toList).all Char.isDigit = true := by
  unfold validateVersion at h
  rw [removeDots_eq_flatten]
  rcases hs : splitDots s.toList with _ | ⟨a, _ | ⟨b, _ | ⟨c, _ | ⟨d, _ | ⟨e, t⟩⟩⟩⟩⟩ <;>
    rw [hs] at h
  · exact absurd h (by simp)
  · exact absurd h (by simp)
  · exact absurd h (by simp)
  · exact absurd h (by simp)
  · obtain ⟨ha, hb, hc, hd⟩ :
        isDigitRun a = true ∧ isDigitRun b = true ∧ isDigitRun c = true ∧ isDigitRun d = true := by
      simpa [Bool.and_eq_true, and_assoc] using h
    simp only [isDigitRun, Bool.and_eq_true, Bool.not_eq_true', List.isEmpty_eq_false]
      at ha hb hc hd
    constructor
    · simp only [List.flatten_cons, List.flatten_nil]
      exact List.append_ne_nil_of_left_ne_nil ha.1 _
    · simp [List.all_append, ha.2, hb.2, hc.2, hd.2]
  · exact absurd h (by simp)

/-- On validated versions, `compare` compares the digit-concatenation
values after rounding each to a double. -/
theorem compare_eq_of_valid {v1 v2 : String}
    (h1 : validateVersion v1 = true) (h2 : validateVersion v2 = true) :
    compare v1 v2 =
      (if roundToDouble (digitConcatVal v1) < roundToDouble (digitConcatVal v2) then -1
       else if roundToDouble (digitConcatVal v1) > roundToDouble (digitConcatVal v2) then 1
       else 0) := by
  obtain ⟨hne1, hd1⟩ := validateVersion_removeDots h1
  obtain ⟨hne2, hd2⟩ := validateVersion_removeDots h2
  unfold compare
  rw [parseIntJS_of_digits hne1 hd1, parseIntJS_of_digits hne2 hd2]
  rfl

/-! ## Claim theorems -/

/-- C1, counterexample: with the token `"latest"` and a failing
latest-version fetch, `resolveVersion` returns the literal `"latest"`
(which is what is then handed to the URL builder), not a concrete
4-component version — the claim that `"latest"` never reaches the URL
builder is false at this input. -/
theorem resolveVersion_latest_fetch_failure :
    (resolveVersion ⟨"linux", "x64"⟩ "latest" (.error "HTTP request failed")).version
      = "latest" ∧
    validateVersion "latest" = false := by
  exact ⟨rfl, by decide⟩

/-- C1, amended: `resolveVersion` returns every token other than
`"latest"` unchanged; on `"latest"` with a successful fetch it returns
the platform's latest version; on `"latest"` with a failed fetch it
marks the whole run failed (`core.setFailed`) but still returns the
literal `"latest"`, so `"latest"` can reach the URL builder in that
case — there is no fallback version, but the run is not aborted. -/
theorem resolveVersion_behavior (f : PlatformFacts) (v e : String) (hv : v ≠ "latest") :
    (∀ fetch, resolveVersion f v fetch = ⟨v, false⟩) ∧
    resolveVersion f "latest" (.error e) = ⟨"latest", true⟩ ∧
    (∀ r, resolveVersion f "latest" (.ok r) = ⟨getLatestVersionForPlatform f r, false⟩) := by
  refine ⟨fun fetch => ?_, rfl, fun r => rfl⟩
  simp [resolveVersion, hv]

/-- C1, witness for `resolveVersion_behavior` at a concrete input. -/
theorem resolveVersion_behavior_witness :
    resolveVersion ⟨"linux", "x64"⟩ "1.3.250.1" (.error "HTTP request failed")
      = ⟨"1.3.250.1", false⟩ :=
  (resolveVersion_behavior ⟨"linux", "x64"⟩ "1.3.250.1" "HTTP request failed"
    (by decide)).1 (.error "HTTP request failed")

/-- C2: `getPlatform` returns `"windows"` on non-ARM Windows,
`"linux"` on Linux for both architectures and `"mac"` on Mac; but on
Windows-on-arm64 the `IS_WARM` branch is dead code (the `IS_WINDOWS`
branch precedes it and also matches), so the function returns
`"windows"`, not the `"warm"` the claim states. -/
theorem getPlatform_values :
    getPlatform ⟨"win32", "x64"⟩ = "windows" ∧
    getPlatform ⟨"linux", "x64"⟩ = "linux" ∧
    getPlatform ⟨"linux", "arm64"⟩ = "linux" ∧
    getPlatform ⟨"darwin", "x64"⟩ = "mac" ∧
    getPlatform ⟨"darwin", "arm64"⟩ = "mac" ∧
    getPlatform ⟨"win32", "arm64"⟩ = "windows" ∧
    getPlatform ⟨"win32", "arm64"⟩ ≠ "warm" := by
  refine ⟨rfl, rfl, rfl, rfl, rfl, rfl, by decide⟩

/-- C3: on Linux/arm64 the community-hosted ARM URL assigned by the
`IS_LINUX && arm64` branch is overwritten by the following unguarded
`IS_LINUX` branch, so `getUrlVulkanSdk` returns the vendor x86_64 URL,
not the `vulkansdk-ubuntu-{distro}-arm-{version}.tar.xz` archive the
claim (and the code's own comments) describe. -/
theorem getUrlVulkanSdk_linux_arm_overwritten :
    getUrlVulkanSdk ⟨"linux", "arm64"⟩ "24.04" "1.4.304.0" =
      "https://sdk.lunarg.com/sdk/download/1.4.304.0/linux/vulkansdk-linux-x86_64-1.4.304.0.tar.xz" ∧
    getUrlVulkanSdk ⟨"linux", "arm64"⟩ "24.04" "1.4.304.0" ≠
      "https://github.com/jakoch/vulkan-sdk-arm/releases/download/1.4.304.0/vulkansdk-ubuntu-24.04-arm-1.4.304.0.tar.xz" := by
  refine ⟨by decide, by decide⟩

/-- C4: `getInputVersion` maps the empty token to `"latest"` and
returns every non-empty token unchanged.  The `throw` guard is
`!requestedVersion && !validateVersion(...)`, which is false for every
non-empty token, so malformed tokens such as `"1.3.250"` and
`"latest.1.2.3"` are returned unchanged and no error is ever raised,
contrary to the claim. -/
theorem getInputVersion_validation_dead :
    getInputVersion "" = .ok "latest" ∧
    getInputVersion "latest" = .ok "latest" ∧
    getInputVersion "1.3.250.1" = .ok "1.3.250.1" ∧
    validateVersion "1.3.250" = false ∧
    getInputVersion "1.3.250" = .ok "1.3.250" ∧
    validateVersion "latest.1.2.3" = false ∧
    getInputVersion "latest.1.2.3" = .ok "latest.1.2.3" := by
  refine ⟨rfl, rfl, rfl, by decide, rfl, by decide, rfl⟩

/-- C5, counterexample: the Mac dispatch of `installVulkanSdk` guards
on JavaScript string `<=`, not on the digit-concatenation `compare`.
At `"1.3.1000.0"` (a valid 4-component version) the dispatch picks the
disk-image procedure although `compare` says the version is greater
than `1.3.290.0`, so the claimed equivalence with the `compare`
ordering is false at this input. -/
theorem installVulkanSdk_dispatch_cex :
    installVulkanSdkDispatch ⟨"darwin", "x64"⟩ "1.3.1000.0" = .macDmg ∧
    validateVersion "1.3.1000.0" = true ∧
    compare "1.3.1000.0" "1.3.290.0" = 1 := by
  refine ⟨rfl, by decide, by decide⟩

/-- C5, amended: on Mac, `installVulkanSdk` selects the disk-image
procedure exactly when the version string is `<=` `"1.3.290.0"` in the
JavaScript lexicographic string order, and the zip procedure exactly
otherwise (this agrees with the digit-concatenation ordering on the
published SDK version shapes, but not on all 4-component versions). -/
theorem installVulkanSdk_dispatch_lex (f : PlatformFacts) (v : String) (h : IS_MAC f = true) :
    (installVulkanSdkDispatch f v = .macDmg ↔ jsStringLe v "1.3.290.0" = true) ∧
    (installVulkanSdkDispatch f v = .macZip ↔ jsStringLe v "1.3.290.0" = false) := by
  unfold installVulkanSdkDispatch
  rw [h]
  cases hjs : jsStringLe v "1.3.290.0" <;> simp

/-- C5, witness for `installVulkanSdk_dispatch_lex` at a concrete input. -/
theorem installVulkanSdk_dispatch_lex_witness :
    installVulkanSdkDispatch ⟨"darwin", "x64"⟩ "1.3.250.1" = .macDmg :=
  ((installVulkanSdk_dispatch_lex ⟨"darwin", "x64"⟩ "1.3.250.1" (by decide)).1).mpr (by decide)

/-- C6: `getUrlVulkanSdk` is a pure function of the version and the
platform facts (and the distro probe value) — the embedding makes it a
function of exactly those inputs — and it selects the archive
extension by the digit-concatenation ordering: on linux-x64 the
`1.3.250.1` URL ends with `vulkansdk-linux-x86_64-1.3.250.1.tar.gz`
and the `1.3.261.1` URL ends with `.tar.xz`; on mac the `1.3.290.0`
URL ends with `.dmg` and the `1.3.296.0` URL ends with `.zip`. -/
theorem getUrlVulkanSdk_extensions :
    (∃ p, getUrlVulkanSdk ⟨"linux", "x64"⟩ "" "1.3.250.1" =
      p ++ "vulkansdk-linux-x86_64-1.3.250.1.tar.gz") ∧
    (∃ p, getUrlVulkanSdk ⟨"linux", "x64"⟩ "" "1.3.261.1" = p ++ ".tar.xz") ∧
    (∃ p, getUrlVulkanSdk ⟨"darwin", "x64"⟩ "" "1.3.290.0" = p ++ ".dmg") ∧
    (∃ p, getUrlVulkanSdk ⟨"darwin", "x64"⟩ "" "1.3.296.0" = p ++ ".zip") := by
  refine ⟨⟨"https://sdk.lunarg.com/sdk/download/1.3.250.1/linux/", by decide⟩,
    ⟨"https://sdk.lunarg.com/sdk/download/1.3.261.1/linux/vulkansdk-linux-x86_64-1.3.261.1",
      by decide⟩,
    ⟨"https://sdk.lunarg.com/sdk/download/1.3.290.0/mac/vulkansdk-macos-1.3.290.0", by decide⟩,
    ⟨"https://sdk.lunarg.com/sdk/download/1.3.296.0/mac/vulkansdk-macos-1.3.296.0", by decide⟩⟩

/-- C7, counterexample: `Number.parseInt` yields a double, which
rounds integers above `2 ^ 53`.  The versions `0.0.0.9007199254740993`
and `0.0.0.9007199254740992` both match the 4-component pattern and
have distinct digit-concatenation values (the first strictly greater),
yet both parse to the double `2 ^ 53`, so `compare` returns 0 where
the claim requires 1. -/
theorem compare_above_double_precision :
    validateVersion "0.0.0.9007199254740993" = true ∧
    validateVersion "0.0.0.9007199254740992" = true ∧
    digitConcatVal "0.0.0.9007199254740992" < digitConcatVal "0.0.0.9007199254740993" ∧
    compare "0.0.0.9007199254740993" "0.0.0.9007199254740992" = 0 := by
  refine ⟨by decide, by decide, by decide, by decide⟩

/-- C7, amended: on versions matching the 4-component pattern whose
digit-concatenation values are at most `2 ^ 53` (so the doubles that
`parseInt` produces are exact), `compare` orders by the
digit-concatenation value: if `v1` maps to a strictly greater integer
than `v2` then `compare v1 v2 = 1` and `compare v2 v1 = -1`; and
`compare v v = 0` for every string `v`. -/
theorem compare_digit_concatenation_order (v1 v2 v : String)
    (h1 : validateVersion v1 = true) (h2 : validateVersion v2 = true)
    (hb1 : digitConcatVal v1 ≤ 2 ^ 53) (hb2 : digitConcatVal v2 ≤ 2 ^ 53)
    (hgt : digitConcatVal v2 < digitConcatVal v1) :
    compare v1 v2 = 1 ∧ compare v2 v1 = -1 ∧ compare v v = 0 := by
  refine ⟨?_, ?_, ?_⟩
  · rw [compare_eq_of_valid h1 h2, roundToDouble_of_le hb1, roundToDouble_of_le hb2]
    rw [if_neg (by omega), if_pos hgt]
  · rw [compare_eq_of_valid h2 h1, roundToDouble_of_le hb1, roundToDouble_of_le hb2]
    rw [if_pos hgt]
  · unfold compare
    cases hp : parseIntJS (removeDots v.toList) with
    | none => rfl
    | some n => simp

/-- C7, witness for `compare_digit_concatenation_order` at concrete
versions. -/
theorem compare_digit_concatenation_order_witness :
    compare "1.3.261.1" "1.3.250.1" = 1 ∧ compare "1.3.250.1" "1.3.261.1" = -1 ∧
    compare "latest" "latest" = 0 :=
  compare_digit_concatenation_order "1.3.261.1" "1.3.250.1" "latest"
    (by decide) (by decide) (by decide) (by decide) (by decide)

/-- Appending anything to a non-empty string stays non-empty. -/
theorem append_ne_empty_left {s : String} (t : String) (h : s ≠ "") : s ++ t ≠ "" := by
  intro he
  apply h
  have hd := congrArg String.data he
  rw [String.data_append] at hd
  exact String.ext (List.append_eq_nil.mp hd).1

/-- C8: the primary cache key is
`cache-{platform}-{arch}-vulkan-sdk-{version}`, and the restore list
has exactly two entries, most specific first — the primary without the
version, then that without the `vulkan-sdk-` segment — each a strict
prefix of the primary key (witnessed by a non-empty remainder). -/
theorem getCacheKeys_spec (f : PlatformFacts) (version p : String) (hv : version ≠ "") :
    (getCacheKeys f version p).1 =
      "cache-" ++ getPlatform f ++ "-" ++ f.osArch ++ "-vulkan-sdk-" ++ version ∧
    (getCacheKeys f version p).2 =
      ["cache-" ++ getPlatform f ++ "-" ++ f.osArch ++ "-vulkan-sdk-",
       "cache-" ++ getPlatform f ++ "-" ++ f.osArch ++ "-"] ∧
    (getCacheKeys f version p).2.length = 2 ∧
    (∀ k ∈ (getCacheKeys f version p).2,
      ∃ rest : String, rest ≠ "" ∧ k ++ rest = (getCacheKeys f version p).1) := by
  refine ⟨rfl, rfl, rfl, ?_⟩
  intro k hk
  simp only [getCacheKeys, List.mem_cons, List.not_mem_nil, or_false] at hk
  rcases hk with hk | hk
  · subst hk
    exact ⟨version, hv, rfl⟩
  · subst hk
    refine ⟨"vulkan-sdk-" ++ version, append_ne_empty_left version (by decide), ?_⟩
    simp only [getCacheKeys, String.append_assoc]
    rw [show ("-" : String) ++ ("vulkan-sdk-" ++ version) = "-vulkan-sdk-" ++ version by
      rw [← String.append_assoc]
      rw [show ("-" : String) ++ "vulkan-sdk-" = "-vulkan-sdk-" from by decide]]

/-- C8, witness for `getCacheKeys_spec` at linux/x64/1.3.250.1,
including the concrete primary key from the claim. -/
theorem getCacheKeys_spec_witness :
    (getCacheKeys ⟨"linux", "x64"⟩ "1.3.250.1" "dest").2.length = 2 ∧
    (getCacheKeys ⟨"linux", "x64"⟩ "1.3.250.1" "dest").1 =
      "cache-linux-x64-vulkan-sdk-1.3.250.1" :=
  ⟨(getCacheKeys_spec ⟨"linux", "x64"⟩ "1.3.250.1" "dest" (by decide)).2.2.1, by decide⟩

/-- C9: with caching enabled and a cache-restore hit, `getVulkanSdk`
returns the destination unchanged and its trace contains no download,
install, stripdown or save effect; on a miss or with caching disabled
it downloads and installs the SDK; with caching enabled it then saves
the install path under the primary key, and every save it ever
attempts uses exactly the primary key (never a fallback key). -/
theorem getVulkanSdk_cache_pipeline (f : PlatformFacts) (env : SdkEnv)
    (version destination : String) (uc sd ir : Bool) :
    (uc = true → env.restoreResult.isSome = true →
      (getVulkanSdk f env version destination uc sd ir).1 = destination ∧
      (∀ e ∈ (getVulkanSdk f env version destination uc sd ir).2, e.isEffect = false)) ∧
    ((uc = false ∨ env.restoreResult = none) →
      Event.downloadSdk version ∈ (getVulkanSdk f env version destination uc sd ir).2 ∧
      Event.installSdk env.sdkDownloadPath destination version ∈
        (getVulkanSdk f env version destination uc sd ir).2 ∧
      (uc = true →
        Event.saveCache [env.sdkInstallPath] (getCacheKeys f version destination).1 ∈
          (getVulkanSdk f env version destination uc sd ir).2) ∧
      (∀ ps k, Event.saveCache ps k ∈ (getVulkanSdk f env version destination uc sd ir).2 →
        k = (getCacheKeys f version destination).1)) := by
  constructor
  · rintro rfl hsome
    simp [getVulkanSdk, hsome, Event.isEffect]
  · rintro (rfl | hnone)
    · by_cases hw : ((IS_WINDOWS f || IS_WARM f) && ir) = true <;>
        simp [getVulkanSdk, hw]
    · cases uc <;> cases sd <;>
        by_cases hw : ((IS_WINDOWS f || IS_WARM f) && ir) = true <;>
        simp [getVulkanSdk, hnone, hw]

/-- C9, witness for `getVulkanSdk_cache_pipeline`: a concrete cache
hit returns the destination, and a concrete miss downloads the SDK. -/
theorem getVulkanSdk_cache_pipeline_witness :
    (getVulkanSdk ⟨"linux", "x64"⟩ ⟨some "17", "/tmp/sdk.tar.xz", "/home/vulkan-sdk", "", 3⟩
      "1.3.250.1" "/home/vulkan-sdk" true false false).1 = "/home/vulkan-sdk" ∧
    Event.downloadSdk "1.3.250.1" ∈
      (getVulkanSdk ⟨"linux", "x64"⟩ ⟨none, "/tmp/sdk.tar.xz", "/home/vulkan-sdk", "", 3⟩
        "1.3.250.1" "/home/vulkan-sdk" true false false).2 :=
  ⟨((getVulkanSdk_cache_pipeline ⟨"linux", "x64"⟩
      ⟨some "17", "/tmp/sdk.tar.xz", "/home/vulkan-sdk", "", 3⟩
      "1.3.250.1" "/home/vulkan-sdk" true false false).1 rfl rfl).1,
   ((getVulkanSdk_cache_pipeline ⟨"linux", "x64"⟩
      ⟨none, "/tmp/sdk.tar.xz", "/home/vulkan-sdk", "", 3⟩
      "1.3.250.1" "/home/vulkan-sdk" true false false).2 (Or.inr rfl)).1⟩

/-- C10: the digit-concatenation comparison conflates distinct
versions: `"1.13.0.0"` and `"11.3.0.0"` are different strings, both
match the 4-component pattern, and `compare` returns 0 on them. -/
theorem compare_collision :
    ∃ v1 v2 : String, v1 ≠ v2 ∧ validateVersion v1 = true ∧ validateVersion v2 = true ∧
      compare v1 v2 = 0 :=
  ⟨"1.13.0.0", "11.3.0.0", by decide, by decide, by decide, by decide⟩

end VulkanAction
